import Mathlib

/-!
Verification of the paper-plane HTTP client library (Rust) against its
natural-language specification, via a shallow embedding of the relevant
source code in Lean.

The embedding covers:
* the reqwest-backed `Client` and its dispatch pipeline
  (`src/clients/reqwest/mod.rs`): `Client::build`, `request_json`,
  `request_bytes`, `request_unit`;
* the `ShareLinks` service methods (`src/services/share_links.rs`);
* the serde-derived codecs of the schema types `Correspondent`
  (`src/schema/model/correspondent.rs`) and `ImapSecurity`
  (`src/schema/model/imap_security.rs`).

External effects (request building inside reqwest, the network round trip,
body reads) are modelled by an explicit `Env` record holding the outcome of
each effectful step, so the pipeline becomes a pure function of the client
configuration, the call arguments and the environment.  External pure
library functions (`serde_json::from_str::<Value>`, the serde decoder for
the target type `R`, `std::any::type_name::<R>`) are passed as explicit
function arguments, mirroring how the Rust code is generic in `R`.
-/

namespace PaperPlane

/-- `Method` from `src/utils` (used and exhaustively matched in
`translate_method`, `src/clients/reqwest/mod.rs`): the closed enumeration of
HTTP verbs. -/
inductive Method where
  | GET
  | PUT
  | POST
  | PATCH
  | DELETE
deriving DecidableEq, Repr

/-- JSON values, the model of `serde_json::Value`. -/
inductive Json where
  | null
  | bool (b : Bool)
  | num (n : Int)
  | str (s : String)
  | arr (elems : List Json)
  | obj (fields : List (String × Json))
deriving Repr

/-- Raw bytes of an HTTP header value (model of `reqwest::header::HeaderValue`). -/
abbrev HeaderBytes := List Nat

/-- Model of `http::HeaderValue::to_str`: converting a header value to a
string succeeds exactly when every byte is visible ASCII (32 ≤ b < 127) or a
horizontal tab; otherwise it fails, modelled as `none`. -/
def headerValueToStr (bytes : HeaderBytes) : Option String :=
  if bytes.all (fun b => (32 ≤ b && b < 127) || b == 9) then
    some (String.mk (bytes.map Char.ofNat))
  else
    none

/-- First header with the given (lowercase-normalised) name, the model of
`HeaderMap::get`. -/
def headerGet (headers : List (String × HeaderBytes)) (name : String) :
    Option HeaderBytes :=
  (headers.find? (fun h => h.1 == name)).map (fun h => h.2)

/-- The outcome of one executed HTTP exchange, as observed by the dispatch
pipeline: status code, response headers, and the outcomes of the two
possible body reads (`Response::text` and `Response::bytes`), where `none`
models a failed read. -/
structure HttpResponse where
  status : Nat
  headers : List (String × HeaderBytes)
  textBody : Option String
  bytesBody : Option (List Nat)
deriving Repr

/-- `content_type` as computed identically in all three request functions of
`src/clients/reqwest/mod.rs`:
`headers.get(CONTENT_TYPE).and_then(|h| h.to_str().ok()).map(String::from)`. -/
def contentTypeOf (resp : HttpResponse) : Option String :=
  (headerGet resp.headers "content-type").bind headerValueToStr

/-- Model of `StatusCode::is_client_error() || is_server_error()`, the exact
condition under which `Response::error_for_status_ref` returns an error:
the status is in 400..=599. -/
def isErrorStatus (status : Nat) : Bool :=
  400 ≤ status && status ≤ 599

/-- Model of `format!("{status}")` on a `reqwest::StatusCode`; the numeric
rendering of the status code (the human-readable reason phrase appended by
`Display` is opaque text and is not modelled). -/
def statusDisplay (status : Nat) : String :=
  toString status

/-- Opaque model of the `reqwest::Error` produced by
`error_for_status_ref` at a given status (the `source` field of `Server`). -/
def statusErrorSource (status : Nat) : String :=
  "HTTP status error " ++ toString status

/-- The environment of one dispatch call: the outcome of each effectful step
the pipeline performs.  `buildErr = some e` means `request.build()` failed
inside reqwest with error `e`; `sendErr = some e` means `execute` failed;
otherwise `response` is the received response and `duration` the elapsed
time measured around `execute`. -/
structure Env where
  buildErr : Option String
  sendErr : Option String
  response : HttpResponse
  duration : Nat
deriving Repr

/-- `Client` from `src/clients/reqwest/mod.rs`: the configuration held by
the reqwest backend.  `authHeaderValue` is the value produced by
`self.auth.header_value()` (the `Auth` type is opaque to the pipeline, which
only ever uses this one derived string). -/
structure Client where
  server_url : String
  authHeaderValue : String
  additional_headers : List (String × String)
deriving Repr

/-- The literal `Accept` header value attached to every request in
`Client::build`. -/
def acceptHeaderValue : String := "application/json; version=9"

/-- A built request, as assembled by `Client::build`: the URL is
`format!("{}{endpoint}", self.server_url)`; `query` holds the serialized
query parameters appended by `.query(params)` (serialization of `P` is
external, so the already-serialized form is passed in); headers are a flat
list in insertion order, since `reqwest::RequestBuilder::header` appends
(never replaces). -/
structure BuiltRequest where
  method : Method
  url : String
  query : Option String
  headers : List (String × String)
  body : Option Json
deriving Repr

/-- `Client::build` from `src/clients/reqwest/mod.rs` (lines 93-123), up to
the final fallible `request.build()` call (whose failure is modelled by
`Env.buildErr`): attach the fixed `Accept` and `Authorization` headers, the
query, the optional JSON body (`.json(body)` inserts a
`content-type: application/json` header, no such header being present at
that point), then append each additional header in configured order. -/
def Client.build (c : Client) (method : Method) (endpoint : String)
    (query : Option String) (body : Option Json) : BuiltRequest :=
  let fixed := [("accept", acceptHeaderValue), ("authorization", c.authHeaderValue)]
  let withBody :=
    match body with
    | some _ => fixed ++ [("content-type", "application/json")]
    | none => fixed
  { method := method
    url := c.server_url ++ endpoint
    query := query
    headers := withBody ++ c.additional_headers
    body := body }

/-- `Error` from `src/error.rs`, with every variant and its fields exactly
as constructed in `src/clients/reqwest/mod.rs`; opaque source errors
(`reqwest::Error`, `serde_json::Error`) are modelled as strings. -/
inductive Error where
  | RequestBuild (method : Method) (endpoint : String) (source : String)
  | RequestSend (method : Method) (endpoint : String) (source : String)
  | Server (method : Method) (endpoint : String) (status : String)
      (content : Json) (source : String)
  | ContentType (method : Method) (endpoint : String)
      (expected : List String) (received : Option String)
  | ResponseBody (method : Method) (endpoint : String) (source : String)
  | Deserializing (method : Method) (endpoint : String) (typename : String)
      (content : String) (source : String)
deriving Repr

/-- The originating method carried by an `Error` value. -/
def Error.method : Error → Method
  | .RequestBuild m _ _ => m
  | .RequestSend m _ _ => m
  | .Server m _ _ _ _ => m
  | .ContentType m _ _ _ => m
  | .ResponseBody m _ _ => m
  | .Deserializing m _ _ _ _ => m

/-- The endpoint string carried by an `Error` value. -/
def Error.endpoint : Error → String
  | .RequestBuild _ e _ => e
  | .RequestSend _ e _ => e
  | .Server _ e _ _ _ => e
  | .ContentType _ e _ _ => e
  | .ResponseBody _ e _ => e
  | .Deserializing _ e _ _ _ => e

/-- `Extra` from `src/clients/reqwest/mod.rs`: the backend metadata packaged
into the response envelope on success. -/
structure Extra where
  method : Method
  endpoint : String
  status : Nat
  headers : List (String × HeaderBytes)
  duration : Nat
  content_type : Option String
deriving Repr

/-- `Response` from `src/response.rs` as constructed in
`src/clients/reqwest/mod.rs`: the envelope pairing a decoded value with
backend metadata. -/
structure Response (R : Type) (E : Type) where
  value : R
  extra : E
deriving Repr

/-- The best-effort `content` of a `Server` error, shared verbatim by all
three request functions: if reading the body text failed, a sentinel
placeholder string; otherwise the text parsed as JSON when it parses, the
raw text as an opaque string when it does not
(`serde_json::from_str(&content).unwrap_or(Value::String(content))`). -/
def serverContent (parseValue : String → Option Json) (textBody : Option String) :
    Json :=
  match textBody with
  | none => .str "<failed to retrieve content>"
  | some content => (parseValue content).getD (.str content)

/-- The `Extra` record built on the success path of each request function. -/
def mkExtra (method : Method) (endpoint : String) (env : Env) : Extra :=
  { method := method
    endpoint := endpoint
    status := env.response.status
    headers := env.response.headers
    duration := env.duration
    content_type := contentTypeOf env.response }

/-- `request_json` from `src/clients/reqwest/mod.rs` (lines 132-211).
`parseValue` models `serde_json::from_str::<serde_json::Value>`, `typename`
models `std::any::type_name::<R>()`, and `dec` models
`serde_json::from_str::<R>` (returning the decoded value or the parse
error).  Pipeline: build, send, classify status, classify content type,
read body text, decode, wrap. -/
def request_json {R : Type} (c : Client) (method : Method) (endpoint : String)
    (query : Option String) (body : Option Json)
    (parseValue : String → Option Json) (typename : String)
    (dec : String → Except String R) (env : Env) :
    Except Error (Response R Extra) :=
  match env.buildErr with
  | some e => .error (.RequestBuild method endpoint e)
  | none =>
    match env.sendErr with
    | some e => .error (.RequestSend method endpoint e)
    | none =>
      if isErrorStatus env.response.status then
        .error (.Server method endpoint (statusDisplay env.response.status)
          (serverContent parseValue env.response.textBody)
          (statusErrorSource env.response.status))
      else if contentTypeOf env.response ≠ some "application/json" then
        .error (.ContentType method endpoint ["application/json"]
          (contentTypeOf env.response))
      else
        match env.response.textBody with
        | none => .error (.ResponseBody method endpoint "failed to read body")
        | some content =>
          match dec content with
          | .error src =>
            .error (.Deserializing method endpoint typename content src)
          | .ok v => .ok { value := v, extra := mkExtra method endpoint env }

/-- `request_bytes` from `src/clients/reqwest/mod.rs` (lines 213-274): same
build/send/status classification, then no content-type check; the body is
read as raw bytes (`resp.bytes()`), failure yielding `ResponseBody`. -/
def request_bytes (c : Client) (method : Method) (endpoint : String)
    (query : Option String) (body : Option Json)
    (parseValue : String → Option Json) (env : Env) :
    Except Error (Response (List Nat) Extra) :=
  match env.buildErr with
  | some e => .error (.RequestBuild method endpoint e)
  | none =>
    match env.sendErr with
    | some e => .error (.RequestSend method endpoint e)
    | none =>
      if isErrorStatus env.response.status then
        .error (.Server method endpoint (statusDisplay env.response.status)
          (serverContent parseValue env.response.textBody)
          (statusErrorSource env.response.status))
      else
        match env.response.bytesBody with
        | none => .error (.ResponseBody method endpoint "failed to read body")
        | some bs => .ok { value := bs, extra := mkExtra method endpoint env }

/-- `request_unit` from `src/clients/reqwest/mod.rs` (lines 276-333): same
build/send/status classification, then no content-type check and no body
read; the value is the unit value. -/
def request_unit (c : Client) (method : Method) (endpoint : String)
    (query : Option String) (body : Option Json)
    (parseValue : String → Option Json) (env : Env) :
    Except Error (Response Unit Extra) :=
  match env.buildErr with
  | some e => .error (.RequestBuild method endpoint e)
  | none =>
    match env.sendErr with
    | some e => .error (.RequestSend method endpoint e)
    | none =>
      if isErrorStatus env.response.status then
        .error (.Server method endpoint (statusDisplay env.response.status)
          (serverContent parseValue env.response.textBody)
          (statusErrorSource env.response.status))
      else
        .ok { value := (), extra := mkExtra method endpoint env }

/-! ## Schema types and their serde-derived codecs -/

/-- `ImapSecurity` from `src/schema/model/imap_security.rs`: a `repr(u8)`
enum with explicit discriminants 1, 2, 3, serialized by `Serialize_repr` as
its integer representation. -/
inductive ImapSecurity where
  | NoEncryption
  | UseSSL
  | UseSTARTTLS
deriving DecidableEq, Repr

/-- The `repr(u8)` discriminant of an `ImapSecurity` value. -/
def ImapSecurity.repr : ImapSecurity → Int
  | .NoEncryption => 1
  | .UseSSL => 2
  | .UseSTARTTLS => 3

/-- The `Serialize_repr`-derived serializer of `ImapSecurity`: the integer
discriminant as a JSON number. -/
def serializeImapSecurity (s : ImapSecurity) : Json :=
  .num s.repr

/-- The `Deserialize_repr`-derived deserializer of `ImapSecurity`: accept
exactly the numbers 1, 2, 3. -/
def deserializeImapSecurity : Json → Except String ImapSecurity
  | .num 1 => .ok .NoEncryption
  | .num 2 => .ok .UseSSL
  | .num 3 => .ok .UseSTARTTLS
  | _ => .error "invalid value for ImapSecurity"

/-- `const_true` from `src/schema/model/correspondent.rs`: the default-value
function for the `is_insensitive` field. -/
def const_true : Bool := true

/-- Smallest value of a Rust `i32`. -/
def i32Min : Int := -2147483648

/-- Largest value of a Rust `i32`. -/
def i32Max : Int := 2147483647

/-- Serde deserialization of an `i32` field from a JSON value: a number
within the `i32` range. -/
def decodeI32 : Json → Except String Int
  | .num n =>
    if i32Min ≤ n ∧ n ≤ i32Max then .ok n
    else .error "invalid value: integer out of range for i32"
  | _ => .error "invalid type: expected i32"

/-- Serde deserialization of a `String` field from a JSON value. -/
def decodeString : Json → Except String String
  | .str s => .ok s
  | _ => .error "invalid type: expected a string"

/-- Serde deserialization of a `bool` field from a JSON value. -/
def decodeBool : Json → Except String Bool
  | .bool b => .ok b
  | _ => .error "invalid type: expected a boolean"

/-- Serde deserialization of an `Option<String>` field value: `null` and a
string are accepted (a missing field is handled at the struct level). -/
def decodeOptString : Json → Except String (Option String)
  | .null => .ok none
  | .str s => .ok (some s)
  | _ => .error "invalid type: expected string or null"

/-- First value bound to `name` in a JSON object field list (serde reads
the first occurrence of a key). -/
def jsonField (fields : List (String × Json)) (name : String) : Option Json :=
  (fields.find? (fun f => f.1 == name)).map (fun f => f.2)

/-- A present field is decoded with `dec`; a missing field is a serde
`missing field` error. -/
def requiredField {α : Type} (dec : Json → Except String α)
    (fields : List (String × Json)) (name : String) : Except String α :=
  match jsonField fields name with
  | some v => dec v
  | none => .error ("missing field " ++ name)

/-- A present field is decoded with `dec`; a missing field takes the default
value `d` (serde `#[serde(default)]` / `#[serde(default = "...")]`, and the
implicit `None` default of `Option` fields). -/
def defaultedField {α : Type} (dec : Json → Except String α) (d : α)
    (fields : List (String × Json)) (name : String) : Except String α :=
  match jsonField fields name with
  | some v => dec v
  | none => .ok d

/-- `Correspondent` from `src/schema/model/correspondent.rs`.  The field
types `MatchingAlgorithm` (`super::MatchingAlgorithm`) and `Permissions`
(`super::Permissions`) are defined elsewhere in the repository; the struct
is parametric in them, and their serde codecs are passed to the
(de)serializer as explicit functions. -/
structure Correspondent (MA : Type) (PM : Type) where
  id : Int
  slug : String
  document_count : Int
  last_correspondence : Option String
  user_can_change : Bool
  name : String
  «matches» : String
  matching_algorithm : MA
  is_insensitive : Bool
  owner : Int
  permissions : PM
deriving Repr

/-- The serde-derived serializer of `Correspondent` under
`#[skip_serializing_none]`: fields in declaration order, `matches` renamed
to `match` (`#[serde(rename = "match")]`), and the `Option` field
`last_correspondence` omitted entirely when `None`. -/
def serializeCorrespondent {MA PM : Type} (encMA : MA → Json)
    (encPM : PM → Json) (c : Correspondent MA PM) : Json :=
  .obj
    ([("id", .num c.id), ("slug", .str c.slug),
      ("document_count", .num c.document_count)]
      ++ (match c.last_correspondence with
          | none => []
          | some s => [("last_correspondence", .str s)])
      ++ [("user_can_change", .bool c.user_can_change),
          ("name", .str c.name),
          ("match", .str c.«matches»),
          ("matching_algorithm", encMA c.matching_algorithm),
          ("is_insensitive", .bool c.is_insensitive),
          ("owner", .num c.owner),
          ("permissions", encPM c.permissions)])

/-- The serde-derived deserializer of `Correspondent`: `document_count`
defaults to 0 and `user_can_change` to `false` when absent
(`#[serde(default)]`), `is_insensitive` defaults to `const_true` when
absent (`#[serde(default = "const_true")]`), the `Option` field
`last_correspondence` decodes to `None` when absent, and every other field
is required. -/
def deserializeCorrespondent {MA PM : Type} (decMA : Json → Except String MA)
    (decPM : Json → Except String PM) (j : Json) :
    Except String (Correspondent MA PM) :=
  match j with
  | .obj fields =>
    (requiredField decodeI32 fields "id").bind fun id =>
    (requiredField decodeString fields "slug").bind fun slug =>
    (defaultedField decodeI32 0 fields "document_count").bind fun document_count =>
    (defaultedField decodeOptString none fields "last_correspondence").bind
      fun last_correspondence =>
    (defaultedField decodeBool false fields "user_can_change").bind
      fun user_can_change =>
    (requiredField decodeString fields "name").bind fun name =>
    (requiredField decodeString fields "match").bind fun matchValue =>
    (requiredField decMA fields "matching_algorithm").bind fun matching_algorithm =>
    (defaultedField decodeBool const_true fields "is_insensitive").bind
      fun is_insensitive =>
    (requiredField decodeI32 fields "owner").bind fun owner =>
    (requiredField decPM fields "permissions").bind fun permissions =>
    .ok
      { id := id, slug := slug, document_count := document_count
        last_correspondence := last_correspondence
        user_can_change := user_can_change, name := name
        «matches» := matchValue
        matching_algorithm := matching_algorithm
        is_insensitive := is_insensitive, owner := owner
        permissions := permissions }
  | _ => .error "invalid type: expected struct Correspondent"

/-! ## Pagination and the share-links service -/

/-- Modelled from the spec: `Paginated<Item>` from `crate::schema::model`
(its definition is not among the provided source files).  Per the spec's
data model, an ordered sequence of items plus two optional navigation
tokens (previous-page locator, next-page locator) and a total-count
field. -/
structure Paginated (Item : Type) where
  count : Nat
  next : Option String
  previous : Option String
  results : List Item
deriving Repr

/-- Modelled from the spec: the generic `next_page` of the `Client` trait in
`crate::clients` (not among the provided source files; `ShareLinks` in
`src/services/share_links.rs` delegates to it as `C::next_page`).  Per the
spec's pagination protocol: inspect the next-page token; if absent, return
"no further page" without issuing any dispatch; if present, issue exactly
one structured dispatch using the token as the complete request target and
return its result.  `dispatch` abstracts the structured dispatch; the first
component of the result is the list of dispatches issued, in order. -/
def next_page {Item : Type} (dispatch : String → Except Error (Response (Paginated Item) Extra))
    (current : Paginated Item) :
    List String × Except Error (Option (Response (Paginated Item) Extra)) :=
  match current.next with
  | none => ([], .ok none)
  | some token => ([token], (dispatch token).map some)

/-- Modelled from the spec: the generic `previous_page` of the `Client`
trait in `crate::clients`, symmetric to `next_page` on the previous-page
token. -/
def previous_page {Item : Type} (dispatch : String → Except Error (Response (Paginated Item) Extra))
    (current : Paginated Item) :
    List String × Except Error (Option (Response (Paginated Item) Extra)) :=
  match current.previous with
  | none => ([], .ok none)
  | some token => ([token], (dispatch token).map some)

/-- The endpoint built by the id-taking `ShareLinks` methods:
`format!("/api/share_links/{id}/")`. -/
def shareLinkPath (id : Int) : String :=
  "/api/share_links/" ++ toString id ++ "/"

/-- `destroy` from `src/services/share_links.rs` (lines 55-59): one
`request_unit` dispatch, `DELETE`, to `/api/share_links/{id}/`, with no
query parameters (`params::NONE`) and no body (`body::NONE`).  The first
component records the single unit dispatch issued (method and endpoint). -/
def destroy (c : Client) (id : Int) (parseValue : String → Option Json)
    (env : Env) :
    List (Method × String) × Except Error (Response Unit Extra) :=
  ([(Method.DELETE, shareLinkPath id)],
   request_unit c Method.DELETE (shareLinkPath id) none none parseValue env)

/-! ## Helper lemmas and concrete fixtures -/

/-- A success status (2xx) is never rejected by `error_for_status_ref`. -/
theorem success_not_error {s : Nat} (h : s ≤ 299) : isErrorStatus s = false := by
  simp only [isErrorStatus, Bool.and_eq_false_imp, decide_eq_true_eq,
    decide_eq_false_iff_not]
  omega

/-- ASCII byte sequence of a string, for building concrete header values. -/
def asciiBytes (s : String) : List Nat :=
  s.data.map Char.toNat

/-- A concrete client configuration for concrete evaluations. -/
def exClient : Client :=
  { server_url := "http://paperless.local", authHeaderValue := "Token secret"
    additional_headers := [("x-extra", "1")] }

/-- A decoder for the target type that always fails (used where decoding
must not be reached). -/
def decFail : String → Except String Json :=
  fun s => .error ("unexpected decode of " ++ s)

/-- A `serde_json::Value` parser model that recognises no body at all. -/
def parseNone : String → Option Json :=
  fun _ => none

/-- The concrete error body `{"detail":"error"}` of the spec's 500
scenario. -/
def serverBody : String := "\x7b\"detail\":\"error\"\x7d"

/-- A `serde_json::Value` parser model that parses exactly `serverBody`
into the corresponding JSON object. -/
def parseDetail : String → Option Json :=
  fun s => if s = serverBody then some (.obj [("detail", .str "error")]) else none

/-- A response with status 304 (not a success, not a client or server
error), no content-type header, and a readable empty body. -/
def envStatus304 : Env :=
  { buildErr := none, sendErr := none
    response := { status := 304, headers := [], textBody := some "", bytesBody := some [] }
    duration := 0 }

/-- The spec's 500 scenario: server reply status 500 with body
`{"detail":"error"}`. -/
def envStatus500 : Env :=
  { buildErr := none, sendErr := none
    response := { status := 500
                  headers := [("content-type", asciiBytes "application/json")]
                  textBody := some serverBody, bytesBody := some [] }
    duration := 0 }

/-- A success response carrying content type `text/html`. -/
def envHtml : Env :=
  { buildErr := none, sendErr := none
    response := { status := 200
                  headers := [("content-type", asciiBytes "text/html")]
                  textBody := some "<html></html>", bytesBody := some [1, 2, 3] }
    duration := 0 }

/-- A success response with content type `application/json` whose body is
truncated JSON. -/
def envBadJson : Env :=
  { buildErr := none, sendErr := none
    response := { status := 200
                  headers := [("content-type", asciiBytes "application/json")]
                  textBody := some "[1,2", bytesBody := some [] }
    duration := 0 }

/-- The spec's deletion scenario: status 204 with an empty body. -/
def envStatus204 : Env :=
  { buildErr := none, sendErr := none
    response := { status := 204, headers := [], textBody := some "", bytesBody := some [] }
    duration := 0 }

/-- An environment in which `request.build()` itself fails. -/
def envBuildFail : Env :=
  { buildErr := some "invalid header name", sendErr := none
    response := { status := 200, headers := [], textBody := some "", bytesBody := some [] }
    duration := 0 }

/-- A success response whose content-type header value holds the byte 200,
which is not visible ASCII, so `to_str` fails on it. -/
def envOpaqueHeader : Env :=
  { buildErr := none, sendErr := none
    response := { status := 200, headers := [("content-type", [200])]
                  textBody := some "", bytesBody := some [] }
    duration := 0 }

/-! ## Claims -/

/-- C1, counterexample to the claim as stated: a response with status 304 —
not a success status — does not yield `Error::Server`; the status check
passes it through (`error_for_status_ref` only rejects 400-599) and the
call fails later with `Error::ContentType` instead. -/
theorem c1_counterexample :
    envStatus304.response.status = 304
    ∧ request_json (R := Json) exClient .GET "/api/share_links/" none none
        parseNone "serde_json::Value" decFail envStatus304
        = .error (.ContentType .GET "/api/share_links/" ["application/json"] none) :=
  ⟨rfl, rfl⟩

/-- C1 (amended): for every call to `request_json`, `request_bytes` or
`request_unit` whose HTTP response has a client- or server-error status
(400-599), the call returns `Error::Server` carrying the status and a
best-effort content value: the body parsed as structured JSON when it
parses, the raw body as an opaque string when it does not, and a sentinel
placeholder string when the body cannot be read at all; this happens
regardless of the response's content-type, before any content-type check or
shape-specific decoding runs. -/
theorem c1_server_error {R : Type} (c : Client) (m : Method) (endpoint : String)
    (query : Option String) (body : Option Json)
    (parseValue : String → Option Json) (typename : String)
    (dec : String → Except String R) (env : Env)
    (hb : env.buildErr = none) (hsend : env.sendErr = none)
    (herr : isErrorStatus env.response.status = true) :
    request_json (R := R) c m endpoint query body parseValue typename dec env
      = .error (.Server m endpoint (statusDisplay env.response.status)
          (serverContent parseValue env.response.textBody)
          (statusErrorSource env.response.status))
    ∧ request_bytes c m endpoint query body parseValue env
      = .error (.Server m endpoint (statusDisplay env.response.status)
          (serverContent parseValue env.response.textBody)
          (statusErrorSource env.response.status))
    ∧ request_unit c m endpoint query body parseValue env
      = .error (.Server m endpoint (statusDisplay env.response.status)
          (serverContent parseValue env.response.textBody)
          (statusErrorSource env.response.status))
    ∧ (env.response.textBody = none →
        serverContent parseValue env.response.textBody
          = .str "<failed to retrieve content>")
    ∧ (∀ t j, env.response.textBody = some t → parseValue t = some j →
        serverContent parseValue env.response.textBody = j)
    ∧ (∀ t, env.response.textBody = some t → parseValue t = none →
        serverContent parseValue env.response.textBody = .str t) := by
  refine ⟨?_, ?_, ?_, ?_, ?_, ?_⟩
  · simp [request_json, hb, hsend, herr]
  · simp [request_bytes, hb, hsend, herr]
  · simp [request_unit, hb, hsend, herr]
  · intro ht; simp [serverContent, ht]
  · intro t j ht hp; simp [serverContent, ht, hp]
  · intro t ht hp; simp [serverContent, ht, hp]

/-- C1 witness: the spec's scenario — GET to `/api/share_links/` answered
with status 500 and body `{"detail":"error"}` returns `Error::Server` whose
content is the parsed JSON object, not a raw string. -/
theorem c1_server_error_witness :
    request_json (R := Json) exClient .GET "/api/share_links/" none none
      parseDetail "serde_json::Value" decFail envStatus500
      = .error (.Server .GET "/api/share_links/" "500"
          (.obj [("detail", .str "error")]) (statusErrorSource 500)) := by
  have h := c1_server_error (R := Json) exClient .GET "/api/share_links/" none none
    parseDetail "serde_json::Value" decFail envStatus500 rfl rfl (by decide)
  exact h.1

/-- C2: on the structured path, a success-status response whose
content-type is not exactly `application/json` (including an absent one)
yields `Error::ContentType` carrying the expected and received values, with
no body decoding attempted (the decoder and the body are arbitrary); the
bytes and unit paths perform no content-type check and succeed under any
content type. -/
theorem c2_content_type_check {R : Type} (c : Client) (m : Method) (endpoint : String)
    (query : Option String) (body : Option Json)
    (parseValue : String → Option Json) (typename : String)
    (dec : String → Except String R) (env : Env)
    (hb : env.buildErr = none) (hsend : env.sendErr = none)
    (hsucc : 200 ≤ env.response.status ∧ env.response.status ≤ 299) :
    (contentTypeOf env.response ≠ some "application/json" →
      request_json (R := R) c m endpoint query body parseValue typename dec env
        = .error (.ContentType m endpoint ["application/json"]
            (contentTypeOf env.response)))
    ∧ (∀ bs, env.response.bytesBody = some bs →
        request_bytes c m endpoint query body parseValue env
          = .ok { value := bs, extra := mkExtra m endpoint env })
    ∧ request_unit c m endpoint query body parseValue env
        = .ok { value := (), extra := mkExtra m endpoint env } := by
  have hne := success_not_error hsucc.2
  refine ⟨?_, ?_, ?_⟩
  · intro hct
    simp [request_json, hb, hsend, hne, hct]
  · intro bs hbs
    simp [request_bytes, hb, hsend, hne, hbs]
  · simp [request_unit, hb, hsend, hne]

/-- C2 witness: a 200 response with content type `text/html` yields a
`ContentType` error on the structured path, while the unit path succeeds on
the very same response. -/
theorem c2_content_type_check_witness :
    request_json (R := Json) exClient .GET "/api/share_links/" none none
      parseNone "serde_json::Value" decFail envHtml
      = .error (.ContentType .GET "/api/share_links/" ["application/json"]
          (some "text/html"))
    ∧ request_unit exClient .GET "/api/share_links/" none none parseNone envHtml
      = .ok { value := (), extra := mkExtra .GET "/api/share_links/" envHtml } := by
  have h := c2_content_type_check (R := Json) exClient .GET "/api/share_links/"
    none none parseNone "serde_json::Value" decFail envHtml rfl rfl (by decide)
  exact ⟨h.1 (by decide), h.2.2⟩

/-- C3: on a `Paginated` value whose corresponding navigation token is
absent, `next_page` (resp. `previous_page`) returns the non-error
`Ok(None)` outcome and issues no dispatch (empty dispatch log); on a value
whose token is present, it issues exactly one structured dispatch using
that token and returns that dispatch's result verbatim (errors propagated
unchanged, a successful envelope wrapped in `Some` as the trait's result
type requires). -/
theorem c3_pagination {Item : Type}
    (dispatch : String → Except Error (Response (Paginated Item) Extra))
    (current : Paginated Item) :
    (current.next = none → next_page dispatch current = ([], .ok none))
    ∧ (∀ token, current.next = some token →
        next_page dispatch current = ([token], (dispatch token).map some))
    ∧ (current.previous = none → previous_page dispatch current = ([], .ok none))
    ∧ (∀ token, current.previous = some token →
        previous_page dispatch current = ([token], (dispatch token).map some)) := by
  refine ⟨?_, ?_, ?_, ?_⟩
  · intro h; simp [next_page, h]
  · intro token h; simp [next_page, h]
  · intro h; simp [previous_page, h]
  · intro token h; simp [previous_page, h]

/-- A concrete dispatch function that fails with a send error, to observe
verbatim propagation. -/
def dispatchOffline : String → Except Error (Response (Paginated Unit) Extra) :=
  fun token => .error (.RequestSend .GET token "connection refused")

/-- A concrete page with no next page and a previous-page token. -/
def exPage : Paginated Unit :=
  { count := 3, next := none
    previous := some "http://paperless.local/api/share_links/?page=1"
    results := [] }

/-- C3 witness: on `exPage`, `next_page` returns `Ok(None)` with no
dispatch issued, and `previous_page` issues exactly one dispatch with the
stored token and propagates its error verbatim. -/
theorem c3_pagination_witness :
    next_page dispatchOffline exPage = ([], .ok none)
    ∧ previous_page dispatchOffline exPage
      = (["http://paperless.local/api/share_links/?page=1"],
         .error (.RequestSend .GET "http://paperless.local/api/share_links/?page=1"
           "connection refused")) := by
  have h := c3_pagination dispatchOffline exPage
  exact ⟨h.1 rfl, h.2.2.2 _ rfl⟩

/-- C4: every request built by `Client::build` targets the URL formed by
appending the endpoint to the configured base address and carries the fixed
`Accept` header (advertising API version 9) followed by the authorization
header derived from the configured credential (and, when a body is
attached, the `content-type` header inserted by `.json`); the additional
headers are appended after those, in configured order, and replace nothing
(the header list is the fixed prefix concatenated with the configured
list). -/
theorem c4_build_request (c : Client) (m : Method) (endpoint : String)
    (query : Option String) (body : Option Json) :
    (c.build m endpoint query body).url = c.server_url ++ endpoint
    ∧ (c.build m endpoint query body).method = m
    ∧ (c.build m endpoint query body).headers
      = (("accept", acceptHeaderValue) :: ("authorization", c.authHeaderValue)
          :: (match body with
              | some _ => [("content-type", "application/json")]
              | none => []))
        ++ c.additional_headers
    ∧ acceptHeaderValue = "application/json; version=9" := by
  cases body <;> simp [Client.build, acceptHeaderValue]

/-- C5: when the status is a success and the content type is exactly
`application/json`, a body text that reads successfully but fails to parse
as the target type yields `Error::Deserializing` carrying the original raw
response text unchanged, the target type's name, and the parse error. -/
theorem c5_deserializing {R : Type} (c : Client) (m : Method) (endpoint : String)
    (query : Option String) (body : Option Json)
    (parseValue : String → Option Json) (typename : String)
    (dec : String → Except String R) (env : Env) (t perr : String)
    (hb : env.buildErr = none) (hsend : env.sendErr = none)
    (hsucc : 200 ≤ env.response.status ∧ env.response.status ≤ 299)
    (hct : contentTypeOf env.response = some "application/json")
    (ht : env.response.textBody = some t)
    (hdec : dec t = .error perr) :
    request_json (R := R) c m endpoint query body parseValue typename dec env
      = .error (.Deserializing m endpoint typename t perr) := by
  have hne := success_not_error hsucc.2
  simp [request_json, hb, hsend, hne, hct, ht, hdec]

/-- C5 witness: a 200 `application/json` response with body `[1,2` that the
target decoder rejects yields `Deserializing` carrying that exact text and
the decoder's error. -/
theorem c5_deserializing_witness :
    request_json (R := Json) exClient .GET "/api/share_links/" none none
      parseNone "paper_plane::schema::model::ShareLink" decFail envBadJson
      = .error (.Deserializing .GET "/api/share_links/"
          "paper_plane::schema::model::ShareLink" "[1,2" "unexpected decode of [1,2") := by
  have h := c5_deserializing (R := Json) exClient .GET "/api/share_links/" none none
    parseNone "paper_plane::schema::model::ShareLink" decFail envBadJson
    "[1,2" "unexpected decode of [1,2" rfl rfl (by decide) (by decide) rfl rfl
  exact h

/-- C6: `destroy(id)` issues exactly one `request_unit` dispatch with method
`DELETE` to `/api/share_links/{id}/`; on any success-status reply it
returns a `Response` whose value is the unit value, and the outcome does
not depend on the response body at all (no body read, no deserialization —
the unit path takes no decoder). -/
theorem c6_destroy (c : Client) (id : Int) (parseValue : String → Option Json)
    (env : Env)
    (hb : env.buildErr = none) (hsend : env.sendErr = none)
    (hsucc : 200 ≤ env.response.status ∧ env.response.status ≤ 299) :
    (destroy c id parseValue env).1
      = [(Method.DELETE, "/api/share_links/" ++ toString id ++ "/")]
    ∧ (destroy c id parseValue env).2
      = .ok { value := (), extra := mkExtra Method.DELETE (shareLinkPath id) env }
    ∧ ∀ tb bb,
        (destroy c id parseValue
          { env with response :=
              { env.response with textBody := tb, bytesBody := bb } }).2
        = (destroy c id parseValue env).2 := by
  have hne := success_not_error hsucc.2
  refine ⟨rfl, ?_, ?_⟩
  · simp [destroy, request_unit, hb, hsend, hne]
  · intro tb bb
    simp [destroy, request_unit, hb, hsend, hne, mkExtra, contentTypeOf]

/-- C6 witness: the spec's scenario — DELETE to `/api/share_links/5/`
answered 204 with empty body returns the unit-valued envelope. -/
theorem c6_destroy_witness :
    (destroy exClient 5 parseNone envStatus204).1
      = [(Method.DELETE, "/api/share_links/5/")]
    ∧ (destroy exClient 5 parseNone envStatus204).2
      = .ok { value := (), extra := mkExtra Method.DELETE "/api/share_links/5/" envStatus204 } := by
  have h := c6_destroy exClient 5 parseNone envStatus204 rfl rfl (by decide)
  exact ⟨h.1, h.2.1⟩

/-- C7: every `Error` value produced by any of the three dispatch
operations carries the originating method and the endpoint string of the
call that produced it. -/
theorem c7_error_context {R : Type} (c : Client) (m : Method) (endpoint : String)
    (query : Option String) (body : Option Json)
    (parseValue : String → Option Json) (typename : String)
    (dec : String → Except String R) (env : Env) :
    (∀ err, request_json (R := R) c m endpoint query body parseValue typename dec env
        = .error err → err.method = m ∧ err.endpoint = endpoint)
    ∧ (∀ err, request_bytes c m endpoint query body parseValue env
        = .error err → err.method = m ∧ err.endpoint = endpoint)
    ∧ (∀ err, request_unit c m endpoint query body parseValue env
        = .error err → err.method = m ∧ err.endpoint = endpoint) := by
  refine ⟨?_, ?_, ?_⟩
  · intro err h
    unfold request_json at h
    repeat' split at h
    all_goals first
      | (injection h with h; subst h; exact ⟨rfl, rfl⟩)
      | simp at h
  · intro err h
    unfold request_bytes at h
    repeat' split at h
    all_goals first
      | (injection h with h; subst h; exact ⟨rfl, rfl⟩)
      | simp at h
  · intro err h
    unfold request_unit at h
    repeat' split at h
    all_goals first
      | (injection h with h; subst h; exact ⟨rfl, rfl⟩)
      | simp at h

/-- C7 witness: the request-build failure of `envBuildFail` produces an
error carrying the call's method and endpoint. -/
theorem c7_error_context_witness :
    (Error.RequestBuild Method.POST "/api/share_links/" "invalid header name").method
      = Method.POST
    ∧ (Error.RequestBuild Method.POST "/api/share_links/" "invalid header name").endpoint
      = "/api/share_links/" := by
  have h := c7_error_context (R := Json) exClient .POST "/api/share_links/" none none
    parseNone "serde_json::Value" decFail envBuildFail
  exact h.1 _ rfl

/-- C8: serializing any valid schema value and deserializing the result
with the same format yields a value equal to the original: every
`Correspondent` (whose `i32` fields are within the `i32` range, and whose
opaque `MatchingAlgorithm` and `Permissions` field codecs round-trip, as
serde-derived codecs do) round-trips, with the `None` optional field
omitted on serialization (`skip_serializing_none`) decoding back to `None`;
and every `ImapSecurity` value round-trips through its integer
representation. -/
theorem c8_roundtrip {MA PM : Type} (encMA : MA → Json)
    (decMA : Json → Except String MA) (encPM : PM → Json)
    (decPM : Json → Except String PM)
    (hma : ∀ a, decMA (encMA a) = .ok a) (hpm : ∀ p, decPM (encPM p) = .ok p)
    (c : Correspondent MA PM)
    (hid1 : i32Min ≤ c.id) (hid2 : c.id ≤ i32Max)
    (hdc1 : i32Min ≤ c.document_count) (hdc2 : c.document_count ≤ i32Max)
    (how1 : i32Min ≤ c.owner) (how2 : c.owner ≤ i32Max) :
    deserializeCorrespondent decMA decPM (serializeCorrespondent encMA encPM c)
      = .ok c
    ∧ ∀ s : ImapSecurity, deserializeImapSecurity (serializeImapSecurity s) = .ok s := by
  constructor
  · obtain ⟨id, slug, dc, lc, ucc, nm, mt, ma, ii, ow, pm⟩ := c
    cases lc <;>
      simp_all [serializeCorrespondent, deserializeCorrespondent, requiredField,
        defaultedField, jsonField, List.find?, decodeI32, decodeString, decodeBool,
        decodeOptString, Except.bind]
  · intro s; cases s <;> rfl

/-- A concrete correspondent (with the opaque field types instantiated by
the integer-repr enum `ImapSecurity` and its codec, which round-trips). -/
def exCorrespondent : Correspondent ImapSecurity ImapSecurity :=
  { id := 7, slug := "alice", document_count := 3, last_correspondence := none
    user_can_change := false, name := "Alice", «matches» := "alice@example.com"
    matching_algorithm := .UseSSL, is_insensitive := true, owner := 1
    permissions := .NoEncryption }

/-- C8 witness: `exCorrespondent` (with its `None` optional field omitted
on the wire) and a concrete `ImapSecurity` value both round-trip. -/
theorem c8_roundtrip_witness :
    deserializeCorrespondent deserializeImapSecurity deserializeImapSecurity
      (serializeCorrespondent serializeImapSecurity serializeImapSecurity
        exCorrespondent)
      = .ok exCorrespondent
    ∧ deserializeImapSecurity (serializeImapSecurity .UseSTARTTLS)
      = .ok .UseSTARTTLS := by
  have h := c8_roundtrip serializeImapSecurity deserializeImapSecurity
    serializeImapSecurity deserializeImapSecurity
    (by intro a; cases a <;> rfl) (by intro p; cases p <;> rfl)
    exCorrespondent (by decide) (by decide) (by decide) (by decide)
    (by decide) (by decide)
  exact ⟨h.1, h.2 .UseSTARTTLS⟩

/-- C9: whenever deserializing a `Correspondent` from wire data succeeds
while the `is_insensitive` field is absent, the decoded value has
`is_insensitive = true`; likewise an absent `document_count` decodes to 0
and an absent `user_can_change` decodes to `false`. -/
theorem c9_absent_field_defaults {MA PM : Type} (decMA : Json → Except String MA)
    (decPM : Json → Except String PM) (fields : List (String × Json))
    (c : Correspondent MA PM)
    (hdec : deserializeCorrespondent decMA decPM (.obj fields) = .ok c) :
    (jsonField fields "is_insensitive" = none → c.is_insensitive = true)
    ∧ (jsonField fields "document_count" = none → c.document_count = 0)
    ∧ (jsonField fields "user_can_change" = none → c.user_can_change = false) := by
  refine ⟨?_, ?_, ?_⟩ <;> intro habs <;>
  · unfold deserializeCorrespondent at hdec
    simp only [defaultedField, habs, Except.bind] at hdec
    repeat' split at hdec
    all_goals first
      | (injection hdec with hdec; subst hdec; rfl)
      | simp at hdec

/-- A wire object for a correspondent that omits `is_insensitive`,
`document_count` and `user_can_change` (and `last_correspondence`). -/
def exWireFields : List (String × Json) :=
  [("id", .num 7), ("slug", .str "alice"), ("name", .str "Alice"),
   ("match", .str "alice@example.com"), ("matching_algorithm", .num 2),
   ("owner", .num 1), ("permissions", .num 1)]

/-- The value `exWireFields` decodes to. -/
def exDecoded : Correspondent ImapSecurity ImapSecurity :=
  { id := 7, slug := "alice", document_count := 0, last_correspondence := none
    user_can_change := false, name := "Alice", «matches» := "alice@example.com"
    matching_algorithm := .UseSSL, is_insensitive := true, owner := 1
    permissions := .NoEncryption }

/-- C9 witness: decoding `exWireFields`, whose `is_insensitive`,
`document_count` and `user_can_change` fields are absent, yields the
defaults true, 0 and false. -/
theorem c9_absent_field_defaults_witness :
    exDecoded.is_insensitive = true
    ∧ exDecoded.document_count = 0
    ∧ exDecoded.user_can_change = false := by
  have h := c9_absent_field_defaults deserializeImapSecurity deserializeImapSecurity
    exWireFields exDecoded rfl
  exact ⟨h.1 rfl, h.2.1 rfl, h.2.2 rfl⟩

/-- C10: a content-type header whose value cannot be converted to a string
(`to_str` fails) is treated as absent: the computed content type is `None`;
on the structured path a success-status response then yields
`Error::ContentType` with received `None`; and any successful bytes or unit
dispatch carries `content_type = None` in its envelope metadata. -/
theorem c10_header_to_str_failure {R : Type} (c : Client) (m : Method)
    (endpoint : String) (query : Option String) (body : Option Json)
    (parseValue : String → Option Json) (typename : String)
    (dec : String → Except String R) (env : Env) (raw : HeaderBytes)
    (hb : env.buildErr = none) (hsend : env.sendErr = none)
    (hraw : headerGet env.response.headers "content-type" = some raw)
    (hbad : headerValueToStr raw = none) :
    contentTypeOf env.response = none
    ∧ (200 ≤ env.response.status ∧ env.response.status ≤ 299 →
        request_json (R := R) c m endpoint query body parseValue typename dec env
          = .error (.ContentType m endpoint ["application/json"] none))
    ∧ (∀ r, request_bytes c m endpoint query body parseValue env = .ok r →
        r.extra.content_type = none)
    ∧ (∀ r, request_unit c m endpoint query body parseValue env = .ok r →
        r.extra.content_type = none) := by
  have hct : contentTypeOf env.response = none := by
    simp [contentTypeOf, hraw, hbad]
  refine ⟨hct, ?_, ?_, ?_⟩
  · intro hsucc
    simp [request_json, hb, hsend, success_not_error hsucc.2, hct]
  · intro r hr
    unfold request_bytes at hr
    repeat' split at hr
    all_goals first
      | (injection hr with hr; subst hr; simp [mkExtra, hct])
      | simp at hr
  · intro r hr
    unfold request_unit at hr
    repeat' split at hr
    all_goals first
      | (injection hr with hr; subst hr; simp [mkExtra, hct])
      | simp at hr

/-- C10 witness: with a content-type header holding the non-ASCII byte 200
on a 200 response, the computed content type is `None` and the structured
path fails with `ContentType` received `None`. -/
theorem c10_header_to_str_failure_witness :
    contentTypeOf envOpaqueHeader.response = none
    ∧ request_json (R := Json) exClient .GET "/api/share_links/" none none
        parseNone "serde_json::Value" decFail envOpaqueHeader
        = .error (.ContentType .GET "/api/share_links/" ["application/json"] none) := by
  have h := c10_header_to_str_failure (R := Json) exClient .GET "/api/share_links/"
    none none parseNone "serde_json::Value" decFail envOpaqueHeader [200]
    rfl rfl rfl (by decide)
  exact ⟨h.1, h.2.1 (by decide)⟩

end PaperPlane
